import Mathlib

/-!
Verification development for a multi-user chat platform backend.

The Python source under `src/backend/app` is shallowly embedded here:
the SQLAlchemy rows become Lean structures, the database session becomes
an explicit `DB` value threaded through the route functions, HTTP
exceptions become explicit result constructors, and the streaming
generator `generate` becomes a function producing a trace of events
(SSE frames interleaved with commit points).  The upstream AI provider
calls and the Fernet cipher are external collaborators: the provider
stream is a parameter of the route functions, and the cipher is modelled
by its authenticated-encryption contract.
-/

/-- `ProviderEnum` from `models.py`: the closed set of AI providers. -/
inductive Provider where
  | openai
  | anthropic
deriving DecidableEq, Repr

/-- `ProviderEnum.value`: the string value of the provider enum member. -/
def Provider.value : Provider → String
  | .openai => "openai"
  | .anthropic => "anthropic"

/-- `MessageRoleEnum` from `models.py`. -/
inductive Role where
  | user
  | assistant
  | system
deriving DecidableEq, Repr

/-- `MessageRoleEnum.value`. -/
def Role.value : Role → String
  | .user => "user"
  | .assistant => "assistant"
  | .system => "system"

/-- Modelled from the spec: the Fernet token format itself is implemented
by the external `cryptography` library, not by this repository.  Per §4.1
the primitive is a symmetric authenticated cipher: a token records the key
it was produced under, the payload, and an authentication tag; decryption
verifies the key and the tag.  `mac` stands in for the HMAC. -/
structure FernetToken where
  keyId : Nat
  payload : String
  tag : Nat
deriving DecidableEq, Repr

/-- Modelled from the spec: the authentication tag attached by the cipher
(abstract stand-in for the HMAC over the token body). -/
def mac (keyId : Nat) (payload : String) : Nat :=
  keyId + payload.length

/-- Modelled from the spec: `Fernet.encrypt` — produce an authenticated
token under the given key. -/
def fernetEncrypt (keyId : Nat) (payload : String) : FernetToken :=
  ⟨keyId, payload, mac keyId payload⟩

/-- Modelled from the spec: `Fernet.decrypt` — succeeds exactly on tokens
whose key matches and whose authentication tag verifies; any other token
is rejected (`InvalidToken`), modelled as `none`. -/
def fernetDecrypt (keyId : Nat) (t : FernetToken) : Option String :=
  if t.keyId = keyId ∧ t.tag = mac t.keyId t.payload then some t.payload else none

/-- Result of `decrypt_api_key` (`services/encryption.py`): the function
either returns the plaintext or raises `InvalidToken`. -/
inductive DecryptResult where
  | ok (plaintext : String)
  | invalidToken
deriving DecidableEq, Repr

/-- `encrypt_api_key` from `services/encryption.py`: encrypt the key with
the process-wide Fernet key. -/
def encrypt_api_key (encryptionKey : Nat) (api_key : String) : FernetToken :=
  fernetEncrypt encryptionKey api_key

/-- `decrypt_api_key` from `services/encryption.py`: decrypt a stored
token; a failed decryption raises `InvalidToken`, modelled as
`DecryptResult.invalidToken`. -/
def decrypt_api_key (encryptionKey : Nat) (encrypted_key : FernetToken) : DecryptResult :=
  match fernetDecrypt encryptionKey encrypted_key with
  | some s => .ok s
  | none => .invalidToken

/-- `User` row (`models.py`), fields relevant to the claims. -/
structure UserRow where
  id : Nat
  email : String
deriving DecidableEq, Repr

/-- `Conversation` row (`models.py`). -/
structure ConversationRow where
  id : Nat
  user_id : Nat
  title : String
  agent_type : String
  provider : Provider
  created_at : Nat
  updated_at : Nat
deriving DecidableEq, Repr

/-- `Message` row (`models.py`). -/
structure MessageRow where
  id : Nat
  conversation_id : Nat
  role : Role
  content : String
  created_at : Nat
deriving DecidableEq, Repr

/-- `ApiKey` row (`models.py`): one encrypted key per (user, provider). -/
structure ApiKeyRow where
  id : Nat
  user_id : Nat
  provider : Provider
  encrypted_key : FernetToken
deriving DecidableEq, Repr

/-- The relational store: the tables touched by the chat and conversation
routes, plus an id counter and a logical clock supplying the strictly
increasing `created_at` defaults. -/
structure DB where
  conversations : List ConversationRow
  messages : List MessageRow
  apiKeys : List ApiKeyRow
  nextMessageId : Nat
  clock : Nat
deriving DecidableEq, Repr

/-- `db.add(Message(...)); db.commit()`: append one message row, with the
next fresh id and the current clock as its creation time. -/
def DB.appendMessage (db : DB) (cid : Nat) (role : Role) (content : String) : DB :=
  { db with
    messages := db.messages ++ [⟨db.nextMessageId, cid, role, content, db.clock⟩]
    nextMessageId := db.nextMessageId + 1
    clock := db.clock + 1 }

/-- The two distinct `ValueError` raise sites of `AgentFactory.create`
(`services/ai_service.py`): a direct strategy paired with the wrong
provider, or an unrecognized strategy tag. -/
inductive AgentFactoryError where
  | providerMismatch (detail : String)
  | unknownAgentType (detail : String)
deriving DecidableEq, Repr

/-- The detail string carried by the error (`str(e)` in the routes). -/
def AgentFactoryError.detail : AgentFactoryError → String
  | .providerMismatch d => d
  | .unknownAgentType d => d

/-- The concrete `BaseAIService` instances built by the factory
(`services/ai_service.py`). -/
inductive BaseAIService where
  | langGraphService (llmProvider : String) (model : String) (api_key : String)
  | openAIDirectService (api_key : String) (model : String)
  | anthropicDirectService (api_key : String) (model : String)
deriving DecidableEq, Repr

/-- `LangGraphService.__init__`: picks `ChatOpenAI` when the provider is
`"openai"`, otherwise `ChatAnthropic`, with strategy-specific model
defaults. -/
def LangGraphService.init (api_key : String) (provider : String)
    (model : Option String) : BaseAIService :=
  if provider = "openai" then
    .langGraphService "openai" (model.getD "gpt-4-turbo-preview") api_key
  else
    .langGraphService "anthropic" (model.getD "claude-3-5-sonnet-20241022") api_key

/-- `AgentFactory.create` from `services/ai_service.py`: dispatch on the
`agent_type` tag, checking provider compatibility for the two direct
strategies and rejecting unknown tags. -/
def AgentFactory.create (agent_type : String) (provider : String)
    (api_key : String) (model : Option String) :
    Except AgentFactoryError BaseAIService :=
  if agent_type = "langgraph" then
    .ok (LangGraphService.init api_key provider model)
  else if agent_type = "openai_direct" then
    if provider ≠ "openai" then
      .error (.providerMismatch "openai_direct agent requires openai provider")
    else
      .ok (.openAIDirectService api_key (model.getD "gpt-4-turbo-preview"))
  else if agent_type = "anthropic_direct" then
    if provider ≠ "anthropic" then
      .error (.providerMismatch "anthropic_direct agent requires anthropic provider")
    else
      .ok (.anthropicDirectService api_key (model.getD "claude-3-5-sonnet-20241022"))
  else
    .error (.unknownAgentType
      ("Unknown agent_type: " ++ agent_type ++
       ". Supported: langgraph, openai_direct, anthropic_direct"))

/-- True when the factory rejected the request at its unknown-tag raise
site (`UnsupportedStrategy` in the spec's taxonomy). -/
def isUnsupportedStrategy : Except AgentFactoryError BaseAIService → Bool
  | .error (.unknownAgentType _) => true
  | _ => false

/-- True when the factory rejected the request at one of its
provider-compatibility raise sites (`ProviderStrategyMismatch`). -/
def isProviderMismatch : Except AgentFactoryError BaseAIService → Bool
  | .error (.providerMismatch _) => true
  | _ => false

/-- One entry of the history handed to the agent
(`{"role": msg.role.value, "content": msg.content}` in `routes/chat.py`). -/
structure HistoryEntry where
  role : String
  content : String
deriving DecidableEq, Repr

/-- Insertion step of the `ORDER BY created_at DESC` sort. -/
def insertDesc (m : MessageRow) : List MessageRow → List MessageRow
  | [] => [m]
  | h :: t => if h.created_at ≤ m.created_at then m :: h :: t else h :: insertDesc m t

/-- The ORM query clause `.order_by(Message.created_at.desc())`: sort the
selected rows by creation time, newest first. -/
def sortByCreatedAtDesc : List MessageRow → List MessageRow
  | [] => []
  | h :: t => insertDesc h (sortByCreatedAtDesc t)

/-- History retrieval of `routes/chat.py` (both endpoints): select the
conversation's messages, order by `created_at` descending, limit 20, then
reverse to oldest-first and convert to the role/content shape. -/
def chatHistory (db : DB) (cid : Nat) : List HistoryEntry :=
  let history_messages :=
    (sortByCreatedAtDesc (db.messages.filter (fun m => m.conversation_id == cid))).take 20
  history_messages.reverse.map (fun m => ⟨m.role.value, m.content⟩)

/-- Outcome of one consumption of the agent's chunk stream: the chunks
produced, and `some e` when the stream raised an exception with text `e`
after yielding them (a clean completion is `none`).  The upstream provider
call is an external collaborator, so this outcome parametrizes the route
functions. -/
structure StreamOutcome where
  chunks : List String
  failure : Option String
deriving DecidableEq, Repr

/-- One event of the streaming generator's trace: an SSE frame yielded to
the caller, or a message row committed to the database. -/
inductive Event where
  | frame (data : String)
  | persist (role : Role) (content : String)
deriving DecidableEq, Repr

/-- The SSE frame for one chunk (`yield f"data: {chunk}\n\n"`). -/
def chunkFrame (chunk : String) : String :=
  "data: " ++ chunk ++ "\n\n"

/-- The clean-completion sentinel frame (`yield "data: [DONE]\n\n"`). -/
def doneFrame : String :=
  "data: [DONE]\n\n"

/-- The terminal error frame (`yield f"data: {error_msg}\n\n"` with
`error_msg = f"Error: {str(e)}"`). -/
def errorFrame (e : String) : String :=
  "data: Error: " ++ e ++ "\n\n"

/-- The content stored on the error path
(`content=f"[Error: {str(e)}]"`). -/
def errorContent (e : String) : String :=
  "[Error: " ++ e ++ "]"

/-- The `generate` coroutine of `chat_stream` (`routes/chat.py` lines
99-131) as a trace of events.  Every chunk is accumulated into
`full_response` and forwarded; on clean completion the `[DONE]` sentinel
is yielded and then the accumulated text is committed as the assistant
message; an exception raised anywhere inside the `try` block (the stream
itself, or the commit of the assistant message, represented by
`commitFailure`) falls into the `except` block, which yields the error
frame and commits `[Error: ...]` as the assistant message. -/
def generate (s : StreamOutcome) (commitFailure : Option String) : List Event :=
  let chunkEvents := s.chunks.map (fun c => Event.frame (chunkFrame c))
  match s.failure with
  | some e =>
      chunkEvents ++ [.frame (errorFrame e), .persist .assistant (errorContent e)]
  | none =>
      match commitFailure with
      | none =>
          chunkEvents ++ [.frame doneFrame,
            .persist .assistant (String.join s.chunks)]
      | some e =>
          chunkEvents ++ [.frame doneFrame, .frame (errorFrame e),
            .persist .assistant (errorContent e)]

/-- Replay the commit points of a trace against the store (the frames go
to the network, the persists to the conversation's message table). -/
def applyEvents (db : DB) (cid : Nat) : List Event → DB
  | [] => db
  | .frame _ :: rest => applyEvents db cid rest
  | .persist r c :: rest => applyEvents (db.appendMessage cid r c) cid rest

/-- `ChatRequest` from `routes/chat.py`. -/
structure ChatRequest where
  conversation_id : Nat
  message : String
deriving DecidableEq, Repr

/-- Result of the `/chat/stream` endpoint: a raised `HTTPException`
(status code and detail), an exception that escaped the route handler
(the framework turns it into a generic 500 server error), or a streaming
response with its event trace. -/
inductive StreamEndpointResult where
  | httpError (statusCode : Nat) (detail : String)
  | unhandledException (exc : String)
  | streaming (events : List Event)
deriving DecidableEq, Repr

/-- Result of the `/chat/message` endpoint: a raised `HTTPException` or
the blocking reply `{"message": ..., "message_id": ...}`. -/
inductive BlockingEndpointResult where
  | httpError (statusCode : Nat) (detail : String)
  | unhandledException (exc : String)
  | reply (message : String) (message_id : Nat)
deriving DecidableEq, Repr

/-- `chat_stream` from `routes/chat.py`: look up the conversation by
(id, owner), look up the api key by (owner, provider), decrypt the key
(an `InvalidToken` raised here is not caught by the route and escapes as
a generic server error), load the bounded history, persist the user
message, build the agent via the factory (a `ValueError` becomes a 400
with `str(e)` as detail), then run the streaming generator.  `agent`
supplies the external provider's chunk stream for the given history and
message; `commitFailure` is `some e` when the success-path commit of the
assistant message raises. -/
def chat_stream (db : DB) (currentUserId : Nat) (request : ChatRequest)
    (encryptionKey : Nat)
    (agent : List HistoryEntry → String → StreamOutcome)
    (commitFailure : Option String) : StreamEndpointResult × DB :=
  match db.conversations.find?
      (fun c => c.id == request.conversation_id && c.user_id == currentUserId) with
  | none => (.httpError 404 "Conversation not found", db)
  | some conversation =>
    match db.apiKeys.find?
        (fun k => k.user_id == currentUserId && k.provider == conversation.provider) with
    | none =>
        (.httpError 400 ("No API key configured for " ++ conversation.provider.value), db)
    | some api_key_record =>
      match decrypt_api_key encryptionKey api_key_record.encrypted_key with
      | .invalidToken => (.unhandledException "InvalidToken", db)
      | .ok api_key =>
        let history := chatHistory db request.conversation_id
        let db1 := db.appendMessage request.conversation_id .user request.message
        match AgentFactory.create conversation.agent_type conversation.provider.value
            api_key none with
        | .error e => (.httpError 400 e.detail, db1)
        | .ok _service =>
          let events := generate (agent history request.message) commitFailure
          (.streaming events, applyEvents db1 request.conversation_id events)

/-- `chat_message` from `routes/chat.py`: same validation, credential,
history and user-message steps as `chat_stream`, then the chunks are
accumulated without forwarding; an exception raised while consuming the
stream is re-raised as a 500 `HTTPException` with `str(e)` as detail (no
assistant message is persisted on that path); on clean completion the
accumulated text is persisted and returned with its message id. -/
def chat_message (db : DB) (currentUserId : Nat) (request : ChatRequest)
    (encryptionKey : Nat)
    (agent : List HistoryEntry → String → StreamOutcome) :
    BlockingEndpointResult × DB :=
  match db.conversations.find?
      (fun c => c.id == request.conversation_id && c.user_id == currentUserId) with
  | none => (.httpError 404 "Conversation not found", db)
  | some conversation =>
    match db.apiKeys.find?
        (fun k => k.user_id == currentUserId && k.provider == conversation.provider) with
    | none =>
        (.httpError 400 ("No API key configured for " ++ conversation.provider.value), db)
    | some api_key_record =>
      match decrypt_api_key encryptionKey api_key_record.encrypted_key with
      | .invalidToken => (.unhandledException "InvalidToken", db)
      | .ok api_key =>
        let history := chatHistory db request.conversation_id
        let db1 := db.appendMessage request.conversation_id .user request.message
        match AgentFactory.create conversation.agent_type conversation.provider.value
            api_key none with
        | .error e => (.httpError 400 e.detail, db1)
        | .ok _service =>
          match agent history request.message with
          | ⟨_, some e⟩ => (.httpError 500 e, db1)
          | ⟨chunks, none⟩ =>
            let full_response := String.join chunks
            let db2 := db1.appendMessage request.conversation_id .assistant full_response
            (.reply full_response db1.nextMessageId, db2)

/-- `get_conversation` from `routes/conversations.py`: load by
(id, owner), 404 when absent or owned by someone else, else return the
conversation with its messages ordered by creation time ascending.  The
endpoint is read-only, so no updated store is returned. -/
def get_conversation (db : DB) (conversation_id : Nat) (currentUserId : Nat) :
    Except (Nat × String) (ConversationRow × List MessageRow) :=
  match db.conversations.find?
      (fun c => c.id == conversation_id && c.user_id == currentUserId) with
  | none => .error (404, "Conversation not found")
  | some conversation =>
    .ok (conversation,
      (db.messages.filter (fun m => m.conversation_id == conversation_id)))

/-- `update_conversation` from `routes/conversations.py`: load by
(id, owner), 404 when absent or owned by someone else, else set the title
and bump `updated_at`. -/
def update_conversation (db : DB) (conversation_id : Nat) (title : String)
    (currentUserId : Nat) : Except (Nat × String) ConversationRow × DB :=
  match db.conversations.find?
      (fun c => c.id == conversation_id && c.user_id == currentUserId) with
  | none => (.error (404, "Conversation not found"), db)
  | some conversation =>
    let updated := { conversation with title := title, updated_at := db.clock }
    (.ok updated,
     { db with
        conversations := db.conversations.map
          (fun c => if c.id == conversation_id then updated else c)
        clock := db.clock + 1 })

/-- `delete_conversation` from `routes/conversations.py`: load by
(id, owner), 404 when absent or owned by someone else, else delete the
conversation; deletion cascades to its messages. -/
def delete_conversation (db : DB) (conversation_id : Nat) (currentUserId : Nat) :
    Except (Nat × String) Unit × DB :=
  match db.conversations.find?
      (fun c => c.id == conversation_id && c.user_id == currentUserId) with
  | none => (.error (404, "Conversation not found"), db)
  | some _ =>
    (.ok (),
     { db with
        conversations := db.conversations.filter (fun c => c.id != conversation_id)
        messages := db.messages.filter (fun m => m.conversation_id != conversation_id) })

/-- `get_messages` from `routes/conversations.py`: verify ownership the
same way (404 when absent or not owned), else return the conversation's
messages ordered ascending with skip/limit pagination. -/
def get_messages (db : DB) (conversation_id : Nat) (currentUserId : Nat)
    (skip limit : Nat) : Except (Nat × String) (List MessageRow) :=
  match db.conversations.find?
      (fun c => c.id == conversation_id && c.user_id == currentUserId) with
  | none => .error (404, "Conversation not found")
  | some _ =>
    .ok (((db.messages.filter (fun m => m.conversation_id == conversation_id)).drop
      skip).take limit)

/-- Character-list prefix test (helper for the substring test below). -/
def charsLeading : List Char → List Char → Bool
  | [], _ => true
  | _ :: _, [] => false
  | a :: as, b :: bs => a == b && charsLeading as bs

/-- Character-list infix test: `needle` occurs contiguously in the
haystack. -/
def charsInside (needle : List Char) : List Char → Bool
  | [] => charsLeading needle []
  | b :: bs => charsLeading needle (b :: bs) || charsInside needle bs

/-- Substring test used to state claims about leaked text: `sub` occurs
contiguously inside `s`. -/
def strContains (s sub : String) : Bool :=
  charsInside sub.data s.data

/-- True on the commit events of a trace. -/
def isPersistEvent : Event → Bool
  | .persist _ _ => true
  | .frame _ => false

/-- The caller-visible side of a trace: the SSE frames, in order. -/
def framesOf (events : List Event) : List String :=
  events.filterMap (fun ev => match ev with | .frame d => some d | .persist _ _ => none)

/-- Concrete store fixture used by closed counterexamples and witnesses:
one user (id 1) owning one langgraph/openai conversation (id 1) and an
api key encrypted under the process key 5. -/
def sampleDB : DB :=
  { conversations := [⟨1, 1, "t", "langgraph", .openai, 0, 0⟩]
    messages := []
    apiKeys := [⟨1, 1, .openai, fernetEncrypt 5 "sk-test"⟩]
    nextMessageId := 10
    clock := 3 }

/-- Fixture: an upstream agent whose stream completes cleanly with two
chunks. -/
def agentClean : List HistoryEntry → String → StreamOutcome :=
  fun _ _ => ⟨["Hello", " there"], none⟩

/-- Fixture: an upstream agent whose stream yields one chunk and then
raises. -/
def agentFailing : List HistoryEntry → String → StreamOutcome :=
  fun _ _ => ⟨["partial"], some "boom"⟩

/-- A fixture store whose stored api-key token was encrypted under a
different process key (key 6, while the server decrypts with key 5). -/
def staleKeyDB : DB :=
  { sampleDB with apiKeys := [⟨1, 1, .openai, fernetEncrypt 6 "sk-test"⟩] }

/-- A fixture store with no api key rows at all. -/
def noKeyDB : DB :=
  { sampleDB with apiKeys := [] }

/-- A fixture store holding 25 messages in conversation 1, with strictly
increasing creation times. -/
def manyMessagesDB : DB :=
  { sampleDB with
      messages := (List.range 25).map (fun i => ⟨i, 1, .user, "m" ++ toString i, i⟩) }

/-- Inserting an element strictly older than everything in the
descending-sorted list puts it at the end. -/
theorem insertDesc_of_lt (m : MessageRow) (l : List MessageRow)
    (h : ∀ y ∈ l, m.created_at < y.created_at) :
    insertDesc m l = l ++ [m] := by
  induction l with
  | nil => rfl
  | cons x xs ih =>
    have hx : m.created_at < x.created_at := h x (by simp)
    simp only [insertDesc, if_neg (by omega : ¬ x.created_at ≤ m.created_at)]
    rw [ih (fun y hy => h y (by simp [hy]))]
    simp

/-- Sorting a strictly ascending list by creation time descending just
reverses it. -/
theorem sortByCreatedAtDesc_of_ascending (l : List MessageRow)
    (h : l.Pairwise (fun a b => a.created_at < b.created_at)) :
    sortByCreatedAtDesc l = l.reverse := by
  induction l with
  | nil => rfl
  | cons x xs ih =>
    rcases List.pairwise_cons.mp h with ⟨hx, hxs⟩
    simp only [sortByCreatedAtDesc, ih hxs]
    rw [insertDesc_of_lt x xs.reverse (fun y hy => hx y (List.mem_reverse.mp hy))]
    simp

/-- Taking the first `n` of a reversed list and reversing again drops all
but the last `n` elements. -/
theorem reverse_take_reverse {α : Type} (l : List α) (n : Nat) :
    (l.reverse.take n).reverse = l.drop (l.length - n) := by
  by_cases h : n ≤ l.length
  · have h1 : l.reverse.take n = (l.drop (l.length - n)).reverse := by
      rw [List.reverse_drop]
      congr 1
      omega
    rw [h1, List.reverse_reverse]
  · have h1 : l.reverse.take n = l.reverse := by
      apply List.take_of_length_le
      simp
      omega
    rw [h1, List.reverse_reverse]
    have h2 : l.length - n = 0 := by omega
    rw [h2, List.drop_zero]

/-- Replaying a trace that starts with a run of frames ignores them. -/
theorem applyEvents_frames (db : DB) (cid : Nat) (chunks : List String)
    (rest : List Event) :
    applyEvents db cid (chunks.map (fun c => Event.frame (chunkFrame c)) ++ rest) =
      applyEvents db cid rest := by
  induction chunks with
  | nil => rfl
  | cons x xs ih => simp [applyEvents, ih]

/-- A run of frames contains no commit events. -/
theorem filter_persist_frames (chunks : List String) :
    (chunks.map (fun c => Event.frame (chunkFrame c))).filter isPersistEvent = [] := by
  induction chunks with
  | nil => rfl
  | cons x xs ih => simp [isPersistEvent, ih]

/-- The frames of a trace that starts with a run of chunk frames. -/
theorem framesOf_frames (chunks : List String) (rest : List Event) :
    framesOf (chunks.map (fun c => Event.frame (chunkFrame c)) ++ rest) =
      chunks.map chunkFrame ++ framesOf rest := by
  induction chunks with
  | nil => rfl
  | cons x xs ih => simpa [framesOf] using ih

/-- A character list is a leading run of itself followed by anything. -/
theorem charsLeading_self_append (l t : List Char) :
    charsLeading l (l ++ t) = true := by
  induction l with
  | nil => rfl
  | cons x xs ih => simpa [charsLeading] using ih

/-- A character list occurs inside any list that embeds it contiguously. -/
theorem charsInside_embed (pre needle post : List Char) :
    charsInside needle (pre ++ needle ++ post) = true := by
  induction pre with
  | nil =>
    simp only [List.nil_append]
    cases needle with
    | nil =>
      cases post with
      | nil => rfl
      | cons b bs => simp [charsInside, charsLeading]
    | cons n ns =>
      simp [charsInside, charsLeading, charsLeading_self_append]
  | cons p ps ih =>
    have hstep : charsInside needle ((p :: ps) ++ needle ++ post) =
        (charsLeading needle ((p :: ps) ++ needle ++ post) ||
          charsInside needle (ps ++ needle ++ post)) := rfl
    rw [hstep, ih, Bool.or_true]

/-- Any error-frame string differs from the `[DONE]` sentinel frame: it is
at least one character longer. -/
theorem errorFrame_ne_doneFrame (e : String) : errorFrame e ≠ doneFrame := by
  intro h
  have hl := congrArg String.length h
  simp only [errorFrame, doneFrame, String.length_append] at hl
  have h1 : ("data: Error: " : String).length = 13 := rfl
  have h2 : ("\n\n" : String).length = 2 := rfl
  have h3 : ("data: [DONE]\n\n" : String).length = 14 := rfl
  omega

/-- C1 counterexample: when the stream yields `"Hello"` and then fails
with `"boom"`, exactly one assistant message is committed, but its
content is `"[Error: boom]"` — it does not contain the partial text
`"Hello"` that had been accumulated before the failure. -/
theorem C1_counterexample_partial_text_dropped :
    generate ⟨["Hello"], some "boom"⟩ none =
      [.frame "data: Hello\n\n", .frame "data: Error: boom\n\n",
       .persist .assistant "[Error: boom]"] ∧
    strContains "[Error: boom]" "Hello" = false := by
  exact ⟨rfl, by decide⟩

/-- C1 (amended): for every failed-mid-stream turn, exactly one assistant
message is committed and its content is the failure marker
`[Error: <text>]` alone — the partial text accumulated before the failure
is discarded, not persisted — and the trace ends with a terminal error
frame, which is never the `[DONE]` sentinel frame. -/
theorem C1_failed_stream_one_marker_message (chunks : List String) (e : String)
    (commitFailure : Option String) :
    generate ⟨chunks, some e⟩ commitFailure =
      chunks.map (fun c => Event.frame (chunkFrame c)) ++
        [.frame (errorFrame e), .persist .assistant (errorContent e)] ∧
    (generate ⟨chunks, some e⟩ commitFailure).filter isPersistEvent =
      [.persist .assistant (errorContent e)] ∧
    framesOf (generate ⟨chunks, some e⟩ commitFailure) =
      chunks.map chunkFrame ++ [errorFrame e] ∧
    errorFrame e ≠ doneFrame := by
  refine ⟨rfl, ?_, ?_, errorFrame_ne_doneFrame e⟩
  · show (chunks.map (fun c => Event.frame (chunkFrame c)) ++
        [Event.frame (errorFrame e), Event.persist .assistant (errorContent e)]).filter
          isPersistEvent = _
    rw [List.filter_append, filter_persist_frames]
    rfl
  · show framesOf (chunks.map (fun c => Event.frame (chunkFrame c)) ++
        [Event.frame (errorFrame e), Event.persist .assistant (errorContent e)]) = _
    rw [framesOf_frames]
    rfl

/-- C10: on clean completion the `[DONE]` sentinel frame is yielded
strictly before the assistant message is committed (nothing is persisted
earlier in the trace); and when that commit itself fails, the caller has
already received `[DONE]`, then receives an additional error frame, and
the only message committed for the turn carries the error marker rather
than the accumulated response text. -/
theorem C10_done_precedes_persist (chunks : List String) (e : String) :
    (∃ pre,
      generate ⟨chunks, none⟩ none =
        pre ++ [.frame doneFrame, .persist .assistant (String.join chunks)] ∧
      ∀ ev ∈ pre, isPersistEvent ev = false) ∧
    framesOf (generate ⟨chunks, none⟩ (some e)) =
      framesOf (generate ⟨chunks, none⟩ none) ++ [errorFrame e] ∧
    (generate ⟨chunks, none⟩ (some e)).filter isPersistEvent =
      [.persist .assistant (errorContent e)] := by
  refine ⟨⟨chunks.map (fun c => Event.frame (chunkFrame c)), rfl, ?_⟩, ?_, ?_⟩
  · intro ev hev
    rcases List.mem_map.mp hev with ⟨c, _, rfl⟩
    rfl
  · show framesOf (chunks.map (fun c => Event.frame (chunkFrame c)) ++
        [Event.frame doneFrame, Event.frame (errorFrame e),
         Event.persist .assistant (errorContent e)]) =
      framesOf (chunks.map (fun c => Event.frame (chunkFrame c)) ++
        [Event.frame doneFrame, Event.persist .assistant (String.join chunks)]) ++
        [errorFrame e]
    rw [framesOf_frames, framesOf_frames]
    simp [framesOf]
  · show (chunks.map (fun c => Event.frame (chunkFrame c)) ++
        [Event.frame doneFrame, Event.frame (errorFrame e),
         Event.persist .assistant (errorContent e)]).filter
          isPersistEvent = _
    rw [List.filter_append, filter_persist_frames]
    rfl

/-- The exception text always occurs verbatim inside the terminal error
frame built from it. -/
theorem strContains_errorFrame (e : String) : strContains (errorFrame e) e = true := by
  show charsInside e.data ("data: Error: " ++ e ++ "\n\n").data = true
  have hd : ("data: Error: " ++ e ++ "\n\n").data =
      ("data: Error: " : String).data ++ e.data ++ ("\n\n" : String).data := by
    simp
  rw [hd]
  exact charsInside_embed _ _ _

/-- C4 counterexample: with an upstream failure whose exception text is
`"secret payload sk-123"`, the terminal frame sent to the caller embeds
that text verbatim, and the blocking endpoint returns it verbatim as the
500 detail. -/
theorem C4_counterexample_exception_text_leaked :
    Event.frame (errorFrame "secret payload sk-123") ∈
      generate ⟨["partial"], some "secret payload sk-123"⟩ none ∧
    strContains (errorFrame "secret payload sk-123") "secret payload sk-123" = true ∧
    (chat_message sampleDB 1 ⟨1, "Hi"⟩ 5
        (fun _ _ => ⟨[], some "secret payload sk-123"⟩)).1 =
      .httpError 500 "secret payload sk-123" := by
  refine ⟨by decide, by decide, by decide⟩

/-- C4 (amended): the text reported to the caller on an upstream stream
failure does contain the internal exception text verbatim — the streaming
trace carries the frame `data: Error: <str(e)>` and the blocking endpoint
raises a 500 whose detail is `str(e)` itself. -/
theorem C4_upstream_errors_reported_verbatim
    (chunks : List String) (e : String) (commitFailure : Option String)
    (db : DB) (uid : Nat) (req : ChatRequest) (key : Nat)
    (agent : List HistoryEntry → String → StreamOutcome)
    (conv : ConversationRow) (keyRec : ApiKeyRow) (apiKey : String)
    (svc : BaseAIService)
    (hconv : db.conversations.find?
      (fun c => c.id == req.conversation_id && c.user_id == uid) = some conv)
    (hkey : db.apiKeys.find?
      (fun k => k.user_id == uid && k.provider == conv.provider) = some keyRec)
    (hdec : decrypt_api_key key keyRec.encrypted_key = .ok apiKey)
    (hfac : AgentFactory.create conv.agent_type conv.provider.value apiKey none = .ok svc)
    (hagent : agent (chatHistory db req.conversation_id) req.message = ⟨chunks, some e⟩) :
    Event.frame (errorFrame e) ∈ generate ⟨chunks, some e⟩ commitFailure ∧
    strContains (errorFrame e) e = true ∧
    (chat_message db uid req key agent).1 = .httpError 500 e := by
  refine ⟨?_, strContains_errorFrame e, ?_⟩
  · show Event.frame (errorFrame e) ∈
      chunks.map (fun c => Event.frame (chunkFrame c)) ++
        [Event.frame (errorFrame e), Event.persist .assistant (errorContent e)]
    simp
  · simp only [chat_message, hconv, hkey, hdec, hfac, hagent]

/-- C4 witness: the amended statement at the concrete fixture store, with
a concrete exception text. -/
theorem C4_witness :
    Event.frame (errorFrame "boom") ∈ generate ⟨["partial"], some "boom"⟩ none ∧
    strContains (errorFrame "boom") "boom" = true ∧
    (chat_message sampleDB 1 ⟨1, "Hi"⟩ 5 agentFailing).1 = .httpError 500 "boom" := by
  exact C4_upstream_errors_reported_verbatim ["partial"] "boom" none sampleDB 1 ⟨1, "Hi"⟩ 5
    agentFailing ⟨1, 1, "t", "langgraph", .openai, 0, 0⟩ ⟨1, 1, .openai, fernetEncrypt 5 "sk-test"⟩
    "sk-test" (LangGraphService.init "sk-test" "openai" none)
    rfl rfl rfl rfl rfl

/-- C6: the factory rejects a strategy tag with its unknown-tag error
exactly when the tag is none of the three recognized ones; each direct
strategy rejects every other provider with the provider-mismatch error;
and the langgraph (tool-augmented) strategy resolves successfully for
both the openai and the anthropic provider. -/
theorem C6_resolver_dispatch (agent_type provider api_key : String)
    (model : Option String) :
    (isUnsupportedStrategy (AgentFactory.create agent_type provider api_key model) = true ↔
      agent_type ≠ "langgraph" ∧ agent_type ≠ "openai_direct" ∧
        agent_type ≠ "anthropic_direct") ∧
    (agent_type = "openai_direct" → provider ≠ "openai" →
      isProviderMismatch (AgentFactory.create agent_type provider api_key model) = true) ∧
    (agent_type = "anthropic_direct" → provider ≠ "anthropic" →
      isProviderMismatch (AgentFactory.create agent_type provider api_key model) = true) ∧
    (∃ s, AgentFactory.create "langgraph" "openai" api_key model = .ok s) ∧
    (∃ s, AgentFactory.create "langgraph" "anthropic" api_key model = .ok s) := by
  refine ⟨?_, ?_, ?_, ?_, ?_⟩
  · by_cases h1 : agent_type = "langgraph"
    · simp [AgentFactory.create, h1, isUnsupportedStrategy]
    · by_cases h2 : agent_type = "openai_direct"
      · by_cases hp : provider = "openai" <;>
          simp [AgentFactory.create, h1, h2, hp, isUnsupportedStrategy]
      · by_cases h3 : agent_type = "anthropic_direct"
        · by_cases hp : provider = "anthropic" <;>
            simp [AgentFactory.create, h1, h2, h3, hp, isUnsupportedStrategy]
        · simp [AgentFactory.create, h1, h2, h3, isUnsupportedStrategy]
  · intro h2 hp
    have h1 : agent_type ≠ "langgraph" := by rw [h2]; decide
    simp [AgentFactory.create, h1, h2, hp, isProviderMismatch]
  · intro h3 hp
    have h1 : agent_type ≠ "langgraph" := by rw [h3]; decide
    have h2 : agent_type ≠ "openai_direct" := by rw [h3]; decide
    simp [AgentFactory.create, h1, h2, h3, hp, isProviderMismatch]
  · exact ⟨LangGraphService.init api_key "openai" model, by simp [AgentFactory.create]⟩
  · exact ⟨LangGraphService.init api_key "anthropic" model, by simp [AgentFactory.create]⟩

/-- C6 witness: the dispatch facts instantiated at concrete tags — an
unregistered tag is rejected as unsupported, and each direct strategy
paired with the other provider is rejected as a mismatch. -/
theorem C6_witness :
    isUnsupportedStrategy (AgentFactory.create "bogus" "openai" "k" none) = true ∧
    isProviderMismatch (AgentFactory.create "openai_direct" "anthropic" "k" none) = true ∧
    isProviderMismatch (AgentFactory.create "anthropic_direct" "openai" "k" none) = true := by
  refine ⟨(C6_resolver_dispatch "bogus" "openai" "k" none).1.mpr (by decide),
    (C6_resolver_dispatch "openai_direct" "anthropic" "k" none).2.1 rfl (by decide),
    (C6_resolver_dispatch "anthropic_direct" "openai" "k" none).2.2.1 rfl (by decide)⟩

/-- C9: decrypting an encryption of a credential under the same key gives
the credential back; a token produced under a different key is rejected
as an invalid token; and a tampered token — one whose authentication tag
does not verify — is rejected under every key, never yielding a
plaintext. -/
theorem C9_roundtrip_and_rejection (key : Nat) (x : String)
    (t : FernetToken) (hk : t.keyId ≠ key)
    (t' : FernetToken) (ht : t'.tag ≠ mac t'.keyId t'.payload) :
    decrypt_api_key key (encrypt_api_key key x) = .ok x ∧
    decrypt_api_key key t = .invalidToken ∧
    (∀ k, decrypt_api_key k t' = .invalidToken) := by
  refine ⟨?_, ?_, ?_⟩
  · simp [decrypt_api_key, encrypt_api_key, fernetEncrypt, fernetDecrypt]
  · simp [decrypt_api_key, fernetDecrypt, hk]
  · intro k
    simp [decrypt_api_key, fernetDecrypt, ht]

/-- C9 witness: the round-trip at a concrete credential and key, a
rejected token from a rotated key, and a rejected tampered token. -/
theorem C9_witness :
    (fernetEncrypt 6 "sk-test").keyId ≠ 5 ∧
    (⟨5, "sk-test", 999⟩ : FernetToken).tag ≠ mac 5 "sk-test" ∧
    decrypt_api_key 5 (encrypt_api_key 5 "sk-test") = .ok "sk-test" ∧
    decrypt_api_key 5 (fernetEncrypt 6 "sk-test") = .invalidToken ∧
    decrypt_api_key 5 (⟨5, "sk-test", 999⟩ : FernetToken) = .invalidToken := by
  have h := C9_roundtrip_and_rejection 5 "sk-test" (fernetEncrypt 6 "sk-test")
    (by decide) (⟨5, "sk-test", 999⟩ : FernetToken) (by decide)
  exact ⟨by decide, by decide, h.1, h.2.1, h.2.2 5⟩

/-- C7: when the conversation's stored messages are in strictly
ascending creation order (the order in which the store appends them),
the history handed to the agent is exactly the most recent
`min(N, 20)` of them, oldest-first, in the role/content shape. -/
theorem C7_history_most_recent_20 (db : DB) (cid : Nat)
    (hs : (db.messages.filter (fun m => m.conversation_id == cid)).Pairwise
      (fun a b => a.created_at < b.created_at)) :
    chatHistory db cid =
      ((db.messages.filter (fun m => m.conversation_id == cid)).drop
        ((db.messages.filter (fun m => m.conversation_id == cid)).length - 20)).map
        (fun m => ⟨m.role.value, m.content⟩) ∧
    (chatHistory db cid).length =
      min (db.messages.filter (fun m => m.conversation_id == cid)).length 20 := by
  have hsort := sortByCreatedAtDesc_of_ascending _ hs
  constructor
  · show ((sortByCreatedAtDesc
        (db.messages.filter (fun m => m.conversation_id == cid))).take 20).reverse.map
        (fun m => (⟨m.role.value, m.content⟩ : HistoryEntry)) = _
    rw [hsort, reverse_take_reverse]
  · show (((sortByCreatedAtDesc
        (db.messages.filter (fun m => m.conversation_id == cid))).take 20).reverse.map
        (fun m => (⟨m.role.value, m.content⟩ : HistoryEntry))).length = _
    rw [hsort, reverse_take_reverse, List.length_map, List.length_drop]
    omega

/-- C7 witness: with 25 stored messages the agent receives exactly the
most recent 20, oldest-first. -/
theorem C7_witness :
    (manyMessagesDB.messages.filter (fun m => m.conversation_id == 1)).Pairwise
      (fun a b => a.created_at < b.created_at) ∧
    chatHistory manyMessagesDB 1 =
      ((manyMessagesDB.messages.filter (fun m => m.conversation_id == 1)).drop
        ((manyMessagesDB.messages.filter (fun m => m.conversation_id == 1)).length - 20)).map
        (fun m => ⟨m.role.value, m.content⟩) ∧
    (chatHistory manyMessagesDB 1).length =
      min (manyMessagesDB.messages.filter (fun m => m.conversation_id == 1)).length 20 := by
  have h := C7_history_most_recent_20 manyMessagesDB 1 (by decide)
  exact ⟨by decide, h.1, h.2⟩

/-- C8: when the conversation lookup succeeds for its owner but no api
key row exists for (owner, conversation.provider), both endpoints abort
with the credential-missing client error before any message is written:
the store is returned unchanged, so the message count is unchanged. -/
theorem C8_missing_credential_aborts_before_write
    (db : DB) (uid : Nat) (req : ChatRequest) (key : Nat)
    (agent : List HistoryEntry → String → StreamOutcome)
    (commitFailure : Option String) (conv : ConversationRow)
    (hconv : db.conversations.find?
      (fun c => c.id == req.conversation_id && c.user_id == uid) = some conv)
    (hkey : db.apiKeys.find?
      (fun k => k.user_id == uid && k.provider == conv.provider) = none) :
    chat_stream db uid req key agent commitFailure =
      (.httpError 400 ("No API key configured for " ++ conv.provider.value), db) ∧
    chat_message db uid req key agent =
      (.httpError 400 ("No API key configured for " ++ conv.provider.value), db) ∧
    (chat_stream db uid req key agent commitFailure).2.messages.length =
      db.messages.length := by
  refine ⟨?_, ?_, ?_⟩
  · simp only [chat_stream, hconv, hkey]
  · simp only [chat_message, hconv, hkey]
  · simp only [chat_stream, hconv, hkey]

/-- C8 witness: the abort at the concrete fixture store that has no api
key rows. -/
theorem C8_witness :
    chat_stream noKeyDB 1 ⟨1, "Hi"⟩ 5 agentClean none =
      (.httpError 400 ("No API key configured for " ++ Provider.openai.value), noKeyDB) ∧
    chat_message noKeyDB 1 ⟨1, "Hi"⟩ 5 agentClean =
      (.httpError 400 ("No API key configured for " ++ Provider.openai.value), noKeyDB) ∧
    (chat_stream noKeyDB 1 ⟨1, "Hi"⟩ 5 agentClean none).2.messages.length =
      noKeyDB.messages.length := by
  exact C8_missing_credential_aborts_before_write noKeyDB 1 ⟨1, "Hi"⟩ 5 agentClean none
    ⟨1, 1, "t", "langgraph", .openai, 0, 0⟩ rfl rfl

/-- C3 counterexample: with a stored token encrypted under a rotated key
(key 6) while the server decrypts with key 5, the turn does not surface a
distinct credential-unusable client error — the `InvalidToken` exception
escapes the route handler, which the framework renders as a generic
server error. -/
theorem C3_counterexample_generic_server_error :
    chat_stream staleKeyDB 1 ⟨1, "Hi"⟩ 5 agentClean none =
      (.unhandledException "InvalidToken", staleKeyDB) ∧
    chat_message staleKeyDB 1 ⟨1, "Hi"⟩ 5 agentClean =
      (.unhandledException "InvalidToken", staleKeyDB) := by
  exact ⟨by decide, by decide⟩

/-- C3 (amended): decrypting a malformed, tampered, or rotated-key token
during a turn fails with `InvalidToken`, and because neither chat route
catches it, the exception escapes the handler and surfaces as a generic
server error, not as a distinct credential-unusable condition; no message
is written. -/
theorem C3_invalid_token_escapes_unhandled
    (db : DB) (uid : Nat) (req : ChatRequest) (key : Nat)
    (agent : List HistoryEntry → String → StreamOutcome)
    (commitFailure : Option String) (conv : ConversationRow) (keyRec : ApiKeyRow)
    (hconv : db.conversations.find?
      (fun c => c.id == req.conversation_id && c.user_id == uid) = some conv)
    (hkey : db.apiKeys.find?
      (fun k => k.user_id == uid && k.provider == conv.provider) = some keyRec)
    (hdec : decrypt_api_key key keyRec.encrypted_key = .invalidToken) :
    chat_stream db uid req key agent commitFailure =
      (.unhandledException "InvalidToken", db) ∧
    chat_message db uid req key agent = (.unhandledException "InvalidToken", db) := by
  constructor
  · simp only [chat_stream, hconv, hkey, hdec]
  · simp only [chat_message, hconv, hkey, hdec]

/-- C3 witness: the amended statement at the rotated-key fixture store. -/
theorem C3_witness :
    chat_stream staleKeyDB 1 ⟨1, "bye"⟩ 5 agentFailing none =
      (.unhandledException "InvalidToken", staleKeyDB) ∧
    chat_message staleKeyDB 1 ⟨1, "bye"⟩ 5 agentFailing =
      (.unhandledException "InvalidToken", staleKeyDB) := by
  exact C3_invalid_token_escapes_unhandled staleKeyDB 1 ⟨1, "bye"⟩ 5 agentFailing none
    ⟨1, 1, "t", "langgraph", .openai, 0, 0⟩ ⟨1, 1, .openai, fernetEncrypt 6 "sk-test"⟩
    rfl rfl rfl

/-- C2 counterexample: on a turn whose agent stream fails mid-way, the
streaming endpoint persists one assistant message (the error marker)
while the blocking endpoint persists none — the two modes do not persist
identically on failed turns. -/
theorem C2_counterexample_modes_differ_on_failure :
    ((chat_stream sampleDB 1 ⟨1, "Hi"⟩ 5 agentFailing none).2.messages.filter
      (fun m => m.role == Role.assistant)).length = 1 ∧
    ((chat_message sampleDB 1 ⟨1, "Hi"⟩ 5 agentFailing).2.messages.filter
      (fun m => m.role == Role.assistant)).length = 0 ∧
    (chat_message sampleDB 1 ⟨1, "Hi"⟩ 5 agentFailing).1 = .httpError 500 "boom" := by
  exact ⟨by decide, by decide, by decide⟩

/-- C2 (amended): on turns whose agent stream completes cleanly (and
whose assistant-message commit succeeds) the two modes persist
identically — the resulting stores are equal, and exactly one user
message followed by one assistant message is appended, the user message
strictly earlier by creation time.  (On failed streams the modes differ:
the streaming endpoint persists an error-marker assistant message, the
blocking endpoint persists no assistant message.) -/
theorem C2_clean_turns_persist_identically
    (db : DB) (uid : Nat) (req : ChatRequest) (key : Nat)
    (agent : List HistoryEntry → String → StreamOutcome)
    (conv : ConversationRow) (keyRec : ApiKeyRow) (apiKey : String)
    (svc : BaseAIService) (chunks : List String)
    (hconv : db.conversations.find?
      (fun c => c.id == req.conversation_id && c.user_id == uid) = some conv)
    (hkey : db.apiKeys.find?
      (fun k => k.user_id == uid && k.provider == conv.provider) = some keyRec)
    (hdec : decrypt_api_key key keyRec.encrypted_key = .ok apiKey)
    (hfac : AgentFactory.create conv.agent_type conv.provider.value apiKey none = .ok svc)
    (hagent : agent (chatHistory db req.conversation_id) req.message = ⟨chunks, none⟩) :
    (chat_stream db uid req key agent none).2 = (chat_message db uid req key agent).2 ∧
    (chat_stream db uid req key agent none).2.messages =
      db.messages ++
        [⟨db.nextMessageId, req.conversation_id, .user, req.message, db.clock⟩,
         ⟨db.nextMessageId + 1, req.conversation_id, .assistant, String.join chunks,
          db.clock + 1⟩] ∧
    ((⟨db.nextMessageId, req.conversation_id, .user, req.message,
        db.clock⟩ : MessageRow)).created_at <
      ((⟨db.nextMessageId + 1, req.conversation_id, .assistant, String.join chunks,
        db.clock + 1⟩ : MessageRow)).created_at := by
  have hstream : (chat_stream db uid req key agent none).2 =
      ((db.appendMessage req.conversation_id .user req.message).appendMessage
        req.conversation_id .assistant (String.join chunks)) := by
    simp only [chat_stream, hconv, hkey, hdec, hfac, hagent]
    show applyEvents _ _ (generate ⟨chunks, none⟩ none) = _
    show applyEvents _ _ (chunks.map (fun c => Event.frame (chunkFrame c)) ++
      [Event.frame doneFrame, Event.persist .assistant (String.join chunks)]) = _
    rw [applyEvents_frames]
    rfl
  have hblock : (chat_message db uid req key agent).2 =
      ((db.appendMessage req.conversation_id .user req.message).appendMessage
        req.conversation_id .assistant (String.join chunks)) := by
    simp only [chat_message, hconv, hkey, hdec, hfac, hagent]
  refine ⟨by rw [hstream, hblock], ?_, by simp⟩
  rw [hstream]
  simp [DB.appendMessage]

/-- C2 witness: the amended statement at the concrete fixture store with
a clean two-chunk stream. -/
theorem C2_witness :
    (chat_stream sampleDB 1 ⟨1, "Hi"⟩ 5 agentClean none).2 =
      (chat_message sampleDB 1 ⟨1, "Hi"⟩ 5 agentClean).2 ∧
    (chat_stream sampleDB 1 ⟨1, "Hi"⟩ 5 agentClean none).2.messages =
      sampleDB.messages ++
        [⟨sampleDB.nextMessageId, 1, .user, "Hi", sampleDB.clock⟩,
         ⟨sampleDB.nextMessageId + 1, 1, .assistant,
          String.join ["Hello", " there"], sampleDB.clock + 1⟩] ∧
    ((⟨sampleDB.nextMessageId, 1, .user, "Hi", sampleDB.clock⟩ : MessageRow)).created_at <
      ((⟨sampleDB.nextMessageId + 1, 1, .assistant, String.join ["Hello", " there"],
        sampleDB.clock + 1⟩ : MessageRow)).created_at := by
  exact C2_clean_turns_persist_identically sampleDB 1 ⟨1, "Hi"⟩ 5 agentClean
    ⟨1, 1, "t", "langgraph", .openai, 0, 0⟩ ⟨1, 1, .openai, fernetEncrypt 5 "sk-test"⟩
    "sk-test" (LangGraphService.init "sk-test" "openai" none) ["Hello", " there"]
    rfl rfl rfl rfl rfl

/-- C5: whenever no conversation with the given id is owned by the
requesting user — because the id does not exist at all, or because the
row belongs to a different owner — every read and mutation operation
(get, update title, delete, list messages, and both chat-turn endpoints)
produces the identical `404 Conversation not found` outcome and leaves
the store untouched.  The other-owner case and the nonexistent-id case
satisfy the same hypothesis, so their outcomes are literally the same. -/
theorem C5_cross_user_indistinguishable (db : DB) (cid uidB : Nat)
    (h : ∀ c ∈ db.conversations, c.id = cid → c.user_id ≠ uidB) :
    get_conversation db cid uidB = .error (404, "Conversation not found") ∧
    (∀ t, update_conversation db cid t uidB =
      (.error (404, "Conversation not found"), db)) ∧
    delete_conversation db cid uidB = (.error (404, "Conversation not found"), db) ∧
    (∀ skip limit, get_messages db cid uidB skip limit =
      .error (404, "Conversation not found")) ∧
    (∀ msg key agent commitFailure, chat_stream db uidB ⟨cid, msg⟩ key agent commitFailure =
      (.httpError 404 "Conversation not found", db)) ∧
    (∀ msg key agent, chat_message db uidB ⟨cid, msg⟩ key agent =
      (.httpError 404 "Conversation not found", db)) := by
  have hfind : db.conversations.find? (fun c => c.id == cid && c.user_id == uidB) = none := by
    rw [List.find?_eq_none]
    intro c hc
    simp only [Bool.and_eq_true, beq_iff_eq, not_and]
    exact h c hc
  refine ⟨?_, ?_, ?_, ?_, ?_, ?_⟩
  · simp only [get_conversation, hfind]
  · intro t
    simp only [update_conversation, hfind]
  · simp only [delete_conversation, hfind]
  · intro skip limit
    simp only [get_messages, hfind]
  · intro msg key agent commitFailure
    simp only [chat_stream, hfind]
  · intro msg key agent
    simp only [chat_message, hfind]

/-- C5 witness: user 2 requesting conversation 1, which exists but is
owned by user 1, gets the same `404` on every operation, with the store
unchanged. -/
theorem C5_witness :
    get_conversation sampleDB 1 2 = .error (404, "Conversation not found") ∧
    update_conversation sampleDB 1 "new title" 2 =
      (.error (404, "Conversation not found"), sampleDB) ∧
    delete_conversation sampleDB 1 2 = (.error (404, "Conversation not found"), sampleDB) ∧
    get_messages sampleDB 1 2 0 100 = .error (404, "Conversation not found") ∧
    chat_stream sampleDB 2 ⟨1, "Hi"⟩ 5 agentClean none =
      (.httpError 404 "Conversation not found", sampleDB) ∧
    chat_message sampleDB 2 ⟨1, "Hi"⟩ 5 agentClean =
      (.httpError 404 "Conversation not found", sampleDB) := by
  have h := C5_cross_user_indistinguishable sampleDB 1 2 (by decide)
  exact ⟨h.1, h.2.1 "new title", h.2.2.1, h.2.2.2.1 0 100,
    h.2.2.2.2.1 "Hi" 5 agentClean none, h.2.2.2.2.2 "Hi" 5 agentClean⟩

/-- C1 witness: the amended statement at a concrete one-chunk failed
stream. -/
theorem C1_witness :
    generate ⟨["Hello"], some "boom"⟩ none =
      ["Hello"].map (fun c => Event.frame (chunkFrame c)) ++
        [Event.frame (errorFrame "boom"), Event.persist .assistant (errorContent "boom")] ∧
    (generate ⟨["Hello"], some "boom"⟩ none).filter isPersistEvent =
      [Event.persist .assistant (errorContent "boom")] ∧
    framesOf (generate ⟨["Hello"], some "boom"⟩ none) =
      ["Hello"].map chunkFrame ++ [errorFrame "boom"] ∧
    errorFrame "boom" ≠ doneFrame := by
  exact C1_failed_stream_one_marker_message ["Hello"] "boom" none

/-- C10 witness: the trace relations at a concrete one-chunk clean stream
whose assistant-message commit fails. -/
theorem C10_witness :
    framesOf (generate ⟨["Hello"], none⟩ (some "db down")) =
      framesOf (generate ⟨["Hello"], none⟩ none) ++ [errorFrame "db down"] ∧
    (generate ⟨["Hello"], none⟩ (some "db down")).filter isPersistEvent =
      [Event.persist .assistant (errorContent "db down")] := by
  exact ⟨(C10_done_precedes_persist ["Hello"] "db down").2.1,
    (C10_done_precedes_persist ["Hello"] "db down").2.2⟩
